import Mathlib

/-!
Verification development for the ViduUI API client core.

This file gives a shallow embedding, in Lean 4, of the parts of
`error_codes.py` and `vidu_client.py` that the specification talks about:
the error taxonomy (messages, HTTP statuses, retryability, backoff),
the response-error choke point `handle_api_response`, the local parameter
validation performed by the submission operations before any network call,
the polling loop `wait_for_completion`, the URL accessors, and the
download naming/extension logic of `download_creation`.

Conventions of the embedding:
- Python dicts used as static lookup tables become association lists
  (`List (String × _)`) read with `List.lookup`, mirroring `dict.get`.
- Python dicts used as JSON objects become structures whose optional
  fields are `Option _` (a missing key is `none`).
- A Python function that can `raise ValueError` (or `KeyError`) becomes a
  function into `Except VErr _`; returning `.ok body` marks the single
  point where the code would hand `body` to `_make_request`, so an
  `.error` result means zero network calls were made.
- The blocking poll loop becomes a fuel-indexed recursion over an
  abstract poll stream `polls : Nat → Except VErr TaskInfo`; the k-th
  loop iteration happens at elapsed wall-clock time `k * check_interval`
  (the model charges time only to the `time.sleep(check_interval)` call
  between polls).
-/

namespace ViduSpec

/-! ## Embedding of `error_codes.py` -/

/-- All values of the `ViduErrorCode` enum (the registered taxonomy). -/
def registryCodes : List String :=
  ["0",
   "400", "400001", "400002", "400003", "400004", "400005", "400006",
   "400007", "400008", "400009", "400010", "400011", "400012", "400013",
   "400014", "400015", "400016", "400017",
   "401", "401001", "401002", "401003",
   "403", "403001", "403002", "403003", "403004",
   "404", "404001", "404002", "404003",
   "429", "429001",
   "500", "500001", "500002", "500003", "500004",
   "409001", "409002", "409003",
   "413001", "415001", "422001"]

/-- The table `ViduErrorHandler.ERROR_MESSAGES`: code-to-message table. -/
def ERROR_MESSAGES : List (String × String) :=
  [("0", "操作成功"),
   ("400", "请求参数错误"),
   ("400001", "缺少必需参数"),
   ("400002", "无效的模型名称"),
   ("400003", "无效的图片格式"),
   ("400004", "图片大小超出限制"),
   ("400005", "图片比例不符合要求"),
   ("400006", "提示词长度超出限制"),
   ("400007", "无效的视频时长"),
   ("400008", "无效的分辨率"),
   ("400009", "无效的宽高比"),
   ("400010", "无效的运动幅度"),
   ("400011", "无效的随机种子"),
   ("400012", "透传参数长度超出限制"),
   ("400013", "无效的回调URL"),
   ("400014", "无效的视频URL"),
   ("400015", "无效的音频URL"),
   ("400016", "无效的声音ID"),
   ("400017", "无效的时间控制参数"),
   ("401", "认证失败"),
   ("401001", "无效的API密钥"),
   ("401002", "API密钥已过期"),
   ("401003", "无效的访问令牌"),
   ("403", "权限不足"),
   ("403001", "权限不足"),
   ("403002", "账户已被暂停"),
   ("403003", "请求频率超出限制"),
   ("403004", "配额已用完"),
   ("404", "资源不存在"),
   ("404001", "任务不存在"),
   ("404002", "模型不存在"),
   ("404003", "声音不存在"),
   ("429", "请求过于频繁"),
   ("429001", "达到请求频率限制"),
   ("500", "服务器内部错误"),
   ("500001", "服务不可用"),
   ("500002", "处理过程中发生错误"),
   ("500003", "模型处理错误"),
   ("500004", "存储错误"),
   ("409001", "任务已完成"),
   ("409002", "任务已取消"),
   ("409003", "任务正在进行中"),
   ("413001", "文件过大"),
   ("415001", "不支持的文件格式"),
   ("422001", "文件损坏")]

/-- The table `ViduErrorHandler.HTTP_STATUS_CODES`: code-to-HTTP-status table
(note: the success code "0" has no entry). -/
def HTTP_STATUS_CODES : List (String × Nat) :=
  [("400", 400), ("400001", 400), ("400002", 400), ("400003", 400),
   ("400004", 400), ("400005", 400), ("400006", 400), ("400007", 400),
   ("400008", 400), ("400009", 400), ("400010", 400), ("400011", 400),
   ("400012", 400), ("400013", 400), ("400014", 400), ("400015", 400),
   ("400016", 400), ("400017", 400),
   ("401", 401), ("401001", 401), ("401002", 401), ("401003", 401),
   ("403", 403), ("403001", 403), ("403002", 403), ("403003", 403),
   ("403004", 403),
   ("404", 404), ("404001", 404), ("404002", 404), ("404003", 404),
   ("429", 429), ("429001", 429),
   ("500", 500), ("500001", 500), ("500002", 500), ("500003", 500),
   ("500004", 500),
   ("409001", 409), ("409002", 409), ("409003", 409),
   ("413001", 413), ("415001", 415), ("422001", 422)]

/-- Embeds `ViduErrorHandler.get_error_message`: `ERROR_MESSAGES.get(code, f"未知错误: {code}")`. -/
def get_error_message (code : String) : String :=
  (ERROR_MESSAGES.lookup code).getD ("未知错误: " ++ code)

/-- Embeds `ViduErrorHandler.get_http_status_code`: `HTTP_STATUS_CODES.get(code, 500)`. -/
def get_http_status_code (code : String) : Nat :=
  (HTTP_STATUS_CODES.lookup code).getD 500

/-- The `retryable_codes` set of `ViduErrorHandler.is_retryable_error`:
SERVICE_UNAVAILABLE, INTERNAL_SERVER_ERROR, PROCESSING_ERROR, MODEL_ERROR,
STORAGE_ERROR, TOO_MANY_REQUESTS, RATE_LIMIT_HIT. -/
def retryable_codes : List String :=
  ["500001", "500", "500002", "500003", "500004", "429", "429001"]

/-- Embeds `ViduErrorHandler.is_retryable_error`: membership in `retryable_codes`. -/
def is_retryable_error (error_code : String) : Bool :=
  retryable_codes.contains error_code

/-- The `base_delays` table of `ViduErrorHandler.get_retry_delay`:
TOO_MANY_REQUESTS 60, RATE_LIMIT_HIT 30, SERVICE_UNAVAILABLE 5, and the
remaining transient server errors 2. -/
def base_delays : List (String × Nat) :=
  [("429", 60), ("429001", 30), ("500001", 5), ("500", 2),
   ("500002", 2), ("500003", 2), ("500004", 2)]

/-- The base backoff used by `get_retry_delay`: `base_delays.get(error_code, 1)`. -/
def base_delay (error_code : String) : Nat :=
  (base_delays.lookup error_code).getD 1

/-- Embeds `ViduErrorHandler.get_retry_delay` (for a 1-indexed attempt count):
`min(base_delay * (2 ** (attempt - 1)), 300)`. -/
def get_retry_delay (error_code : String) (attempt : Nat) : Nat :=
  min (base_delay error_code * 2 ^ (attempt - 1)) 300

/-- The `ViduError` exception: `{error_code, message, details}`. -/
structure ViduError where
  error_code : String
  message : String
  details : List (String × String)
deriving DecidableEq, Repr

/-- A decoded API response body, as far as `handle_api_response` inspects
it: an optional `"error_code"` field and an optional `"details"` object. -/
structure ResponseData where
  error_code : Option String
  details : Option (List (String × String))
deriving DecidableEq, Repr

/-- Embeds `ViduErrorHandler.create_error`: builds a `ViduError` from the code,
its registered message, and the details (`details or {}`). -/
def create_error (error_code : String) (details : Option (List (String × String))) : ViduError :=
  { error_code := error_code
  , message := get_error_message error_code
  , details := details.getD [] }

/-- Embeds `ViduErrorHandler.handle_api_response`: raises (`.error`) exactly when
the body has an `"error_code"` field whose value is not `"0"`; the details
default to `{}` via `response_data.get("details", {})`. -/
def handle_api_response (response_data : ResponseData) : Except ViduError Unit :=
  match response_data.error_code with
  | some code =>
      if code ≠ "0" then
        .error (create_error code (some (response_data.details.getD [])))
      else
        .ok ()
  | none => .ok ()

/-! ## Embedding of `vidu_client.py`: models and duration tables -/

/-- The `ViduModel` enum (the video-model names the client recognises). -/
inductive ViduModel
  | viduq1
  | viduq1_classic
  | vidu2_0
  | vidu1_5
deriving DecidableEq, Repr

/-- The table `ViduClient.MODEL_DURATION_LIMITS` (image-to-video duration whitelist). -/
def MODEL_DURATION_LIMITS : ViduModel → List Int
  | .viduq1 => [5]
  | .viduq1_classic => [5]
  | .vidu2_0 => [4, 8]
  | .vidu1_5 => [4, 8]

/-- The table `ViduClient.REFERENCE_MODEL_DURATION_LIMITS` (reference-to-video whitelist). -/
def REFERENCE_MODEL_DURATION_LIMITS : ViduModel → List Int
  | .viduq1 => [5]
  | .viduq1_classic => [5]
  | .vidu2_0 => [4]
  | .vidu1_5 => [4, 8]

/-- The table `ViduClient.START_END_MODEL_DURATION_LIMITS` (start/end-to-video whitelist). -/
def START_END_MODEL_DURATION_LIMITS : ViduModel → List Int
  | .viduq1 => [5]
  | .viduq1_classic => [5]
  | .vidu2_0 => [4, 8]
  | .vidu1_5 => [4, 8]

/-- The table `ViduClient.TEXT_TO_VIDEO_MODEL_DURATION_LIMITS`: a dict holding only
`viduq1` and `vidu1.5`; looking up any other model raises `KeyError`,
modelled by `none`. -/
def TEXT_TO_VIDEO_MODEL_DURATION_LIMITS : ViduModel → Option (List Int)
  | .viduq1 => some [5]
  | .vidu1_5 => some [4, 8]
  | _ => none

/-- The table `ViduClient.MODEL_DEFAULT_DURATIONS`. -/
def MODEL_DEFAULT_DURATIONS : ViduModel → Int
  | .viduq1 => 5
  | .viduq1_classic => 5
  | .vidu2_0 => 4
  | .vidu1_5 => 4

/-- The local exceptions a submission call can raise before reaching the
network: Python `ValueError` (the local ValidationError of the spec) or a
`KeyError` escaping a duration-table lookup. -/
inductive VErr
  | valueError (msg : String)
  | keyError (key : String)
deriving DecidableEq, Repr

/-- Returns `true` exactly on a Python `ValueError`, i.e. the spec's local
ValidationError. -/
def isLocalValidationError {α : Type} : Except VErr α → Bool
  | .error (.valueError _) => true
  | _ => false

/-- Number of `_make_request` invocations a submission result stands for:
the embedding returns `.ok body` exactly at the single point where the
Python code hands `body` to `_make_request`, so an `.error` result means
the dispatcher was never invoked. -/
def netCalls {α : Type} : Except VErr α → Nat
  | .error _ => 0
  | .ok _ => 1

/-- Returns `true` when a fallible call raised (any exception kind). -/
def raisesError {ε α : Type} : Except ε α → Bool
  | .error _ => true
  | .ok _ => false

/-- Embeds `ViduClient._validate_duration` (image-to-video): default duration when
unspecified, else whitelist membership. -/
def _validate_duration (model : ViduModel) (duration : Option Int) : Except VErr Int :=
  match duration with
  | none => .ok (MODEL_DEFAULT_DURATIONS model)
  | some d =>
      if d ∉ MODEL_DURATION_LIMITS model then
        .error (.valueError ("模型不支持 " ++ toString d ++ " 秒时长"))
      else
        .ok d

/-- Embeds `ViduClient._validate_duration_for_reference`. -/
def _validate_duration_for_reference (model : ViduModel) (duration : Option Int) : Except VErr Int :=
  match duration with
  | none => .ok (MODEL_DEFAULT_DURATIONS model)
  | some d =>
      if d ∉ REFERENCE_MODEL_DURATION_LIMITS model then
        .error (.valueError ("模型在参考生视频中不支持 " ++ toString d ++ " 秒时长"))
      else
        .ok d

/-- Embeds `ViduClient._validate_duration_for_start_end`. -/
def _validate_duration_for_start_end (model : ViduModel) (duration : Option Int) : Except VErr Int :=
  match duration with
  | none => .ok (MODEL_DEFAULT_DURATIONS model)
  | some d =>
      if d ∉ START_END_MODEL_DURATION_LIMITS model then
        .error (.valueError ("模型在首尾帧生视频中不支持 " ++ toString d ++ " 秒时长"))
      else
        .ok d

/-- Embeds `ViduClient._validate_duration_for_text_to_video`: the duration table
lookup `TEXT_TO_VIDEO_MODEL_DURATION_LIMITS[model_enum]` raises `KeyError`
for models absent from the dict (but only when a duration was specified,
since the default-duration return happens first). -/
def _validate_duration_for_text_to_video (model : ViduModel) (duration : Option Int) : Except VErr Int :=
  match duration with
  | none => .ok (MODEL_DEFAULT_DURATIONS model)
  | some d =>
      match TEXT_TO_VIDEO_MODEL_DURATION_LIMITS model with
      | none => .error (.keyError "model")
      | some allowed =>
          if d ∉ allowed then
            .error (.valueError ("模型在文生视频中不支持 " ++ toString d ++ " 秒时长"))
          else
            .ok d

/-! ## Submission operations (validation up to the `_make_request` call) -/

/-- The JSON body `ViduClient.image_to_video` hands to `_make_request`
(optional keys are `Option`, absent when the argument was `None`). -/
structure Img2VideoRequest where
  model : ViduModel
  images : List String
  duration : Int
  prompt : Option String
  seed : Option Int
  resolution : Option String
  movement_amplitude : Option String
  bgm : Option Bool
  payload : Option String
  callback_url : Option String
deriving DecidableEq, Repr

/-- Embeds `ViduClient.image_to_video`: local validation, then the request body
for `POST /ent/v2/img2video`. -/
def image_to_video (model : ViduModel) (images : List String)
    (prompt : Option String) (duration : Option Int) (seed : Option Int)
    (resolution : Option String) (movement_amplitude : Option String)
    (bgm : Option Bool) (payload : Option String) (callback_url : Option String) :
    Except VErr Img2VideoRequest :=
  if images.length ≠ 1 then
    .error (.valueError "images参数必须包含且仅包含1张图片")
  else if (prompt.getD "").length > 1500 then
    .error (.valueError "prompt参数不能超过1500个字符")
  else if (payload.getD "").length > 1048576 then
    .error (.valueError "payload参数不能超过1048576个字符")
  else
    match _validate_duration model duration with
    | .error e => .error e
    | .ok validated_duration =>
        .ok { model := model, images := images, duration := validated_duration
            , prompt := prompt, seed := seed, resolution := resolution
            , movement_amplitude := movement_amplitude, bgm := bgm
            , payload := payload, callback_url := callback_url }

/-- The JSON body `ViduClient.reference_to_video` hands to `_make_request`. -/
structure Ref2VideoRequest where
  model : ViduModel
  images : List String
  prompt : String
  duration : Int
  seed : Option Int
  aspect_ratio : Option String
  resolution : Option String
  movement_amplitude : Option String
  bgm : Option Bool
  payload : Option String
  callback_url : Option String
deriving DecidableEq, Repr

/-- Embeds `ViduClient.reference_to_video`: local validation, then the request
body for `POST /ent/v2/reference2video`. -/
def reference_to_video (model : ViduModel) (images : List String)
    (prompt : String) (duration : Option Int) (seed : Option Int)
    (aspect_ratio : Option String) (resolution : Option String)
    (movement_amplitude : Option String) (bgm : Option Bool)
    (payload : Option String) (callback_url : Option String) :
    Except VErr Ref2VideoRequest :=
  if images.length < 1 ∨ images.length > 7 then
    .error (.valueError "images参数必须包含1-7张图片")
  else if prompt.trim = "" then
    .error (.valueError "prompt参数不能为空")
  else if prompt.length > 1500 then
    .error (.valueError "prompt参数不能超过1500个字符")
  else if (payload.getD "").length > 1048576 then
    .error (.valueError "payload参数不能超过1048576个字符")
  else
    match _validate_duration_for_reference model duration with
    | .error e => .error e
    | .ok validated_duration =>
        .ok { model := model, images := images, prompt := prompt
            , duration := validated_duration, seed := seed
            , aspect_ratio := aspect_ratio, resolution := resolution
            , movement_amplitude := movement_amplitude, bgm := bgm
            , payload := payload, callback_url := callback_url }

/-- The JSON body `ViduClient.start_end_to_video` hands to `_make_request`. -/
structure StartEnd2VideoRequest where
  model : ViduModel
  images : List String
  duration : Int
  prompt : Option String
  seed : Option Int
  resolution : Option String
  movement_amplitude : Option String
  bgm : Option Bool
  payload : Option String
  callback_url : Option String
deriving DecidableEq, Repr

/-- Embeds `ViduClient.start_end_to_video`: local validation, then the request
body for `POST /ent/v2/start-end2video`. -/
def start_end_to_video (model : ViduModel) (images : List String)
    (prompt : Option String) (duration : Option Int) (seed : Option Int)
    (resolution : Option String) (movement_amplitude : Option String)
    (bgm : Option Bool) (payload : Option String) (callback_url : Option String) :
    Except VErr StartEnd2VideoRequest :=
  if images.length ≠ 2 then
    .error (.valueError "images参数必须包含且仅包含2张图片（首帧和尾帧）")
  else if (prompt.getD "").length > 1500 then
    .error (.valueError "prompt参数不能超过1500个字符")
  else if (payload.getD "").length > 1048576 then
    .error (.valueError "payload参数不能超过1048576个字符")
  else
    match _validate_duration_for_start_end model duration with
    | .error e => .error e
    | .ok validated_duration =>
        .ok { model := model, images := images, duration := validated_duration
            , prompt := prompt, seed := seed, resolution := resolution
            , movement_amplitude := movement_amplitude, bgm := bgm
            , payload := payload, callback_url := callback_url }

/-- The JSON body `ViduClient.text_to_video` hands to `_make_request`. -/
structure Text2VideoRequest where
  model : ViduModel
  style : String
  prompt : String
  duration : Int
  seed : Option Int
  aspect_ratio : Option String
  resolution : Option String
  movement_amplitude : Option String
  bgm : Option Bool
  payload : Option String
  callback_url : Option String
deriving DecidableEq, Repr

/-- Embeds `ViduClient.text_to_video`: local validation, then the request body for
`POST /ent/v2/text2video`. -/
def text_to_video (model : ViduModel) (style : String) (prompt : String)
    (duration : Option Int) (seed : Option Int) (aspect_ratio : Option String)
    (resolution : Option String) (movement_amplitude : Option String)
    (bgm : Option Bool) (payload : Option String) (callback_url : Option String) :
    Except VErr Text2VideoRequest :=
  if prompt.trim = "" then
    .error (.valueError "prompt参数不能为空")
  else if prompt.length > 1500 then
    .error (.valueError "prompt参数不能超过1500个字符")
  else if style ∉ ["general", "anime"] then
    .error (.valueError "style参数必须是 general 或 anime")
  else if (payload.getD "").length > 1048576 then
    .error (.valueError "payload参数不能超过1048576个字符")
  else
    match _validate_duration_for_text_to_video model duration with
    | .error e => .error e
    | .ok validated_duration =>
        .ok { model := model, style := style, prompt := prompt
            , duration := validated_duration, seed := seed
            , aspect_ratio := aspect_ratio, resolution := resolution
            , movement_amplitude := movement_amplitude, bgm := bgm
            , payload := payload, callback_url := callback_url }

/-! ## Timed-audio submission (`ViduClient.timing_to_audio`) -/

/-- One timed-audio event: the `from`, `to` and `prompt` fields of an
entry of `timing_prompts` (times are numbers; modelled as rationals). -/
structure TimingPrompt where
  «from» : Rat
  «to» : Rat
  prompt : String
deriving DecidableEq, Repr

/-- The JSON body `ViduClient.timing_to_audio` hands to `_make_request`. -/
structure Timing2AudioRequest where
  model : String
  timing_prompts : List TimingPrompt
  duration : Option Rat
  seed : Option Int
  payload : Option String
  callback_url : Option String
deriving DecidableEq, Repr

/-- The per-event validation loop of `timing_to_audio` (`idx` is the
0-based loop counter used in the error messages as `idx+1`).
`actual_duration` is Python's `duration or 10.0`. -/
def validate_timing_events (actual_duration : Rat) : Nat → List TimingPrompt → Except VErr Unit
  | _, [] => .ok ()
  | idx, event :: rest =>
      if event.«from» < 0 ∨ event.«to» > actual_duration then
        .error (.valueError ("第" ++ toString (idx + 1) ++ "个事件的时间范围必须在限制之间"))
      else if event.«from» ≥ event.«to» then
        .error (.valueError ("第" ++ toString (idx + 1) ++ "个事件的from时间必须小于to时间"))
      else if event.prompt.length > 1500 then
        .error (.valueError ("第" ++ toString (idx + 1) ++ "个事件的提示词不能超过1500字符"))
      else
        validate_timing_events actual_duration (idx + 1) rest

/-- Embeds `ViduClient.timing_to_audio`: local validation (non-empty event list,
duration range 2-10, per-event bounds, payload length), then the request
body for `POST /ent/v2/timing2audio`. -/
def timing_to_audio (model : String) (timing_prompts : List TimingPrompt)
    (duration : Option Rat) (seed : Option Int) (payload : Option String)
    (callback_url : Option String) : Except VErr Timing2AudioRequest :=
  if timing_prompts.isEmpty then
    .error (.valueError "timing_prompts参数不能为空")
  else if duration.any (fun d => d < 2 || d > 10) then
    .error (.valueError "duration参数必须在2-10秒之间")
  else
    -- `actual_duration = duration or 10.0` (a zero duration is falsy in Python)
    let actual_duration : Rat := match duration with
      | none => 10
      | some d => if d = 0 then 10 else d
    match validate_timing_events actual_duration 0 timing_prompts with
    | .error e => .error e
    | .ok _ =>
        if (payload.getD "").length > 1048576 then
          .error (.valueError "payload参数不能超过1048576个字符")
        else
          .ok { model := model, timing_prompts := timing_prompts
              , duration := duration, seed := seed, payload := payload
              , callback_url := callback_url }

/-! ## Task state, polling loop, accessors, download -/

/-- One entry of a task's `creations` list, as far as the client reads it:
optional `id`, `url` and `cover_url` keys. -/
structure Creation where
  id : Option String
  url : Option String
  cover_url : Option String
deriving DecidableEq, Repr

/-- A polled task-info dictionary, as far as the client reads it: the
optional `state` string, the `creations` list (`.get('creations', [])`
makes a missing key the empty list), and the optional `id`. -/
structure TaskInfo where
  state : Option String
  creations : List Creation
  id : Option String
deriving DecidableEq, Repr

/-- The terminal-state test of `wait_for_completion`:
`status in [ViduTaskStatus.SUCCESS, ViduTaskStatus.FAILED]`, where a
missing `state` key (`None`) is never terminal. -/
def is_terminal_state (state : Option String) : Bool :=
  state == some "success" || state == some "failed"

/-- The recognised `ViduTaskStatus` state strings. -/
def recognized_states : List String :=
  ["created", "queueing", "processing", "success", "failed"]

/-- Whether a polled `state` value is one of the recognised
`ViduTaskStatus` strings (a missing key is not). -/
def is_recognized_state (state : Option String) : Bool :=
  match state with
  | some s => recognized_states.contains s
  | none => false

/-- Outcome of one run of the `wait_for_completion` loop. `pollsMade`
counts the `query_task` calls performed. -/
inductive WaitOutcome
  | completed (info : TaskInfo) (pollsMade : Nat)
  | timedOut (pollsMade : Nat)
  | pollError (e : VErr) (pollsMade : Nat)
  | outOfFuel
deriving DecidableEq, Repr

/-- Whether a wait outcome is the `TimeoutError` raise. -/
def isTimedOut : WaitOutcome → Bool
  | .timedOut _ => true
  | _ => false

/-- The body of `ViduClient.wait_for_completion` as a fuel-indexed
recursion. Iteration `k` runs at elapsed wall-clock time
`k * check_interval` (time is charged to the `time.sleep(check_interval)`
between polls); the loop first checks `elapsed > timeout`, then polls
(`polls k` is the k-th `query_task` result, `.error` being a poll failure
that propagates), returns on a terminal state, else sleeps and repeats.
`fuel` bounds the number of iterations only so the recursion is total;
`.outOfFuel` stands for running the loop longer than the fuel allows. -/
def wait_for_completion_aux (polls : Nat → Except VErr TaskInfo)
    (timeout check_interval : Nat) : Nat → Nat → WaitOutcome
  | fuel, k =>
      if k * check_interval > timeout then
        .timedOut k
      else
        match fuel with
        | 0 => .outOfFuel
        | fuel' + 1 =>
            match polls k with
            | .error e => .pollError e (k + 1)
            | .ok info =>
                if is_terminal_state info.state then
                  .completed info (k + 1)
                else
                  wait_for_completion_aux polls timeout check_interval fuel' (k + 1)

/-- Embeds `ViduClient.wait_for_completion`: the loop started at iteration 0.
`timeout + 1` iterations of fuel are enough for every positive
`check_interval`, since iteration `timeout + 1` is already past the
deadline. -/
def wait_for_completion (polls : Nat → Except VErr TaskInfo)
    (timeout check_interval : Nat) : WaitOutcome :=
  wait_for_completion_aux polls timeout check_interval (timeout + 1) 0

/-- Embeds `ViduClient.get_creations`: the `creations` list when
`state == ViduTaskStatus.SUCCESS` (the string `"success"`), else `[]`. -/
def get_creations (task_info : TaskInfo) : List Creation :=
  if task_info.state == some "success" then task_info.creations else []

/-- Embeds `ViduClient.get_video_url`: the first creation's `url` when
`get_creations` is non-empty, else `None`. -/
def get_video_url (task_info : TaskInfo) : Option String :=
  match get_creations task_info with
  | [] => none
  | creation :: _ => creation.url

/-- Embeds `ViduClient.get_audio_url`: same body as `get_video_url`, embedded
separately because the source defines it separately. -/
def get_audio_url (task_info : TaskInfo) : Option String :=
  match get_creations task_info with
  | [] => none
  | creation :: _ => creation.url

/-- Modelled from the spec's words (for the C10 equivalence claim): "the
first creation's url when the task state is success and the creations
list is non-empty, otherwise none". -/
def first_creation_url_spec (task_info : TaskInfo) : Option String :=
  match task_info.state, task_info.creations with
  | some s, creation :: _ => if s = "success" then creation.url else none
  | _, _ => none

/-- The recursion behind `splitOnChar`, carrying the (reversed) current
segment. -/
def splitOnCharAux (sep : Char) : List Char → List Char → List (List Char)
  | [], acc => [acc.reverse]
  | ch :: rest, acc =>
      if ch = sep then acc.reverse :: splitOnCharAux sep rest []
      else splitOnCharAux sep rest (ch :: acc)

/-- Python's `s.split(sep)` for the single-character separators used by
`download_creation` (`'?'` and `'.'`), implemented on the character list
so that concrete instances evaluate inside proofs. Like Python's split
with an explicit separator, it never returns an empty list and keeps
empty segments. -/
def splitOnChar (sep : Char) (s : String) : List String :=
  (splitOnCharAux sep s.data []).map (fun l => ⟨l⟩)

/-- Python's `sep in s` membership test for a single character. -/
def containsChar (c : Char) (s : String) : Bool :=
  s.data.contains c

/-- The extension derivation of `ViduClient.download_creation`: strip the
query string (`url.split('?')[0]`), then, if the stripped URL contains a
dot anywhere (`'.' in url_for_ext`), take everything after the last dot
(`url_for_ext.split('.')[-1]`), else fall back to `dflt` (`.mp4` for the
main file, `.jpg` for the cover). -/
def derive_ext (url : String) (dflt : String) : String :=
  let url_for_ext := (splitOnChar '?' url).headD url
  if containsChar '.' url_for_ext then
    "." ++ (splitOnChar '.' url_for_ext).getLastD ""
  else
    dflt

/-- The download loop of `download_creation` over `enumerate(creations)`:
for each creation with a truthy `url`, an entry
`("main_i", save_dir/{pre}_{creation_id}{ext})`, and for a truthy
`cover_url` an entry `("cover_i", save_dir/{pre}_{creation_id}_cover{ext})`.
`download_file` is modelled as returning its save path (its streaming and
transport failures are outside this embedding), and `str(save_path / name)`
as joining with "/". -/
def download_entries (pre save_dir : String) : Nat → List Creation → List (String × String)
  | _, [] => []
  | i, creation :: rest =>
      let creation_id := creation.id.getD ("creation_" ++ toString i)
      let mainEntry := match creation.url with
        | some url =>
            if url = "" then []
            else
              [("main_" ++ toString i,
                save_dir ++ "/" ++ pre ++ "_" ++ creation_id ++ derive_ext url ".mp4")]
        | none => []
      let coverEntry := match creation.cover_url with
        | some cover_url =>
            if cover_url = "" then []
            else
              [("cover_" ++ toString i,
                save_dir ++ "/" ++ pre ++ "_" ++ creation_id ++ "_cover" ++ derive_ext cover_url ".jpg")]
        | none => []
      mainEntry ++ coverEntry ++ download_entries pre save_dir (i + 1) rest

/-- Embeds `ViduClient.download_creation`: raises `ValueError` when
`get_creations` is empty (non-succeeded task, or no creations), else
downloads every artifact under deterministic names, with the filename
prefix defaulting to `task_info.get('id', 'creation')`. -/
def download_creation (task_info : TaskInfo) (save_dir : String)
    (filename_pre : Option String) : Except VErr (List (String × String)) :=
  let creations := get_creations task_info
  if creations.isEmpty then
    .error (.valueError "任务未完成或没有生成物")
  else
    let pre := filename_pre.getD (task_info.id.getD "creation")
    .ok (download_entries pre save_dir 0 creations)

/-- The label-to-path mapping of a successful `download_creation` run
(empty when it raised). -/
def okEntries : Except VErr (List (String × String)) → List (String × String)
  | .ok l => l
  | .error _ => []

/-! ## Helper lemmas -/

/-- A lookup misses every key it differs from. -/
theorem lookup_eq_none_of_forall_ne {β : Type} :
    ∀ (l : List (String × β)) (c : String), (∀ p ∈ l, p.1 ≠ c) → l.lookup c = none := by
  intro l c h
  induction l with
  | nil => rfl
  | cons p t ih =>
      have hp : p.1 ≠ c := h p (by simp)
      have hb : (c == p.1) = false := by
        simp only [beq_eq_false_iff_ne, ne_eq]
        exact fun hc => hp hc.symm
      simp only [List.lookup, hb]
      exact ih (fun q hq => h q (by simp [hq]))

/-- A successful lookup returns an entry of the table. -/
theorem lookup_some_mem {β : Type} :
    ∀ (l : List (String × β)) (c : String) (v : β), l.lookup c = some v → (c, v) ∈ l := by
  intro l c v h
  induction l with
  | nil => simp [List.lookup] at h
  | cons p t ih =>
      rcases hb : (c == p.1) with _ | _
      · simp only [List.lookup, hb] at h
        exact List.mem_cons_of_mem _ (ih h)
      · simp only [List.lookup, hb] at h
        have hv : p.2 = v := by injection h
        subst hv
        have hc : c = p.1 := by simpa [beq_iff_eq] using hb
        subst hc
        simp

/-- Every base backoff (60, 30, 5, 2, or the default 1) is below the cap. -/
theorem base_delay_le_300 (c : String) : base_delay c ≤ 300 := by
  unfold base_delay
  rcases h : base_delays.lookup c with _ | v
  · simp
  · have hm := lookup_some_mem _ _ _ h
    simp only [Option.getD_some]
    fin_cases hm <;> norm_num

/-- A state string outside the recognised set is in particular not
terminal. -/
theorem unrecognized_not_terminal (s : Option String) (h : is_recognized_state s = false) :
    is_terminal_state s = false := by
  cases s with
  | none => rfl
  | some v =>
      simp [is_recognized_state, recognized_states] at h
      simp [is_terminal_state]
      exact ⟨h.2.2.2.1, h.2.2.2.2⟩

/-- The per-event loop accepts a list whose events all satisfy the
bounds. -/
theorem validate_timing_events_ok (ad : Rat) :
    ∀ (l : List TimingPrompt) (idx : Nat),
      (∀ e ∈ l, 0 ≤ e.«from» ∧ e.«from» < e.«to» ∧ e.«to» ≤ ad ∧ e.prompt.length ≤ 1500) →
      validate_timing_events ad idx l = .ok () := by
  intro l
  induction l with
  | nil => intro idx _; rfl
  | cons e rest ih =>
      intro idx h
      obtain ⟨h0, hlt, hle, hp⟩ := h e (by simp)
      have hrest : ∀ q ∈ rest,
          0 ≤ q.«from» ∧ q.«from» < q.«to» ∧ q.«to» ≤ ad ∧ q.prompt.length ≤ 1500 :=
        fun q hq => h q (List.mem_cons_of_mem _ hq)
      unfold validate_timing_events
      rw [if_neg (by push_neg; exact ⟨h0, hle⟩), if_neg (by push_neg; exact hlt),
        if_neg (by omega)]
      exact ih (idx + 1) hrest

/-- The per-event loop raises a `ValueError` as soon as the list contains
an event violating one of the bounds. -/
theorem validate_timing_events_err (ad : Rat) :
    ∀ (l : List TimingPrompt) (idx : Nat) (e : TimingPrompt),
      e ∈ l →
      (e.«from» < 0 ∨ e.«to» > ad ∨ e.«to» ≤ e.«from» ∨ 1500 < e.prompt.length) →
      isLocalValidationError (validate_timing_events ad idx l) = true := by
  intro l
  induction l with
  | nil => intro idx e h; simp at h
  | cons hd rest ih =>
      intro idx e hmem hviol
      unfold validate_timing_events
      split_ifs with h1 h2 h3
      · simp [isLocalValidationError]
      · simp [isLocalValidationError]
      · simp [isLocalValidationError]
      · rcases List.mem_cons.mp hmem with rfl | htail
        · push_neg at h1 h2
          rcases hviol with hv | hv | hv | hv
          · exact absurd h1.1 (by push_neg; exact hv)
          · exact absurd h1.2 (by push_neg; exact hv)
          · exact absurd h2 (by push_neg; exact hv)
          · omega
        · exact ih (idx + 1) e htail hviol

/-- With a poll stream that only ever reports non-terminal states, the
loop reaches the first iteration past the deadline and times out there. -/
theorem wait_aux_timeout (polls : Nat → Except VErr TaskInfo) (timeout check_interval : Nat)
    (hint : 1 ≤ check_interval)
    (hp : ∀ k, ∃ i, polls k = .ok i ∧ is_terminal_state i.state = false) :
    ∀ fuel k, timeout + 1 ≤ fuel + k →
      ∃ n, wait_for_completion_aux polls timeout check_interval fuel k = .timedOut n ∧
        timeout < n * check_interval ∧ (n = k ∨ (n - 1) * check_interval ≤ timeout) := by
  intro fuel
  induction fuel with
  | zero =>
      intro k hk
      have hlate : k * check_interval > timeout := by
        have : k ≤ k * check_interval := Nat.le_mul_of_pos_right _ (by omega)
        omega
      exact ⟨k, by rw [wait_for_completion_aux, if_pos hlate], hlate, Or.inl rfl⟩
  | succ fuel ih =>
      intro k hk
      by_cases hlate : k * check_interval > timeout
      · exact ⟨k, by rw [wait_for_completion_aux, if_pos hlate], hlate, Or.inl rfl⟩
      · obtain ⟨i, hpk, hterm⟩ := hp k
        have hstep : wait_for_completion_aux polls timeout check_interval (fuel + 1) k =
            wait_for_completion_aux polls timeout check_interval fuel (k + 1) := by
          rw [wait_for_completion_aux, if_neg hlate]
          simp [hpk, hterm]
        obtain ⟨n, hn, hbound, hdisj⟩ := ih (k + 1) (by omega)
        refine ⟨n, hstep ▸ hn, hbound, Or.inr ?_⟩
        rcases hdisj with rfl | h
        · simpa using Nat.le_of_not_lt hlate
        · exact h

/-- If the polls before `j` are non-terminal and poll `j` is terminal and
within the deadline, the loop returns that task after `j + 1` polls. -/
theorem wait_aux_completed (polls : Nat → Except VErr TaskInfo) (timeout check_interval : Nat)
    (j : Nat) (info : TaskInfo)
    (hmid : ∀ m, m < j → ∃ i, polls m = .ok i ∧ is_terminal_state i.state = false)
    (hj : polls j = .ok info) (hterm : is_terminal_state info.state = true)
    (hjt : j * check_interval ≤ timeout) :
    ∀ fuel k, k ≤ j → j - k < fuel →
      wait_for_completion_aux polls timeout check_interval fuel k = .completed info (j + 1) := by
  intro fuel
  induction fuel with
  | zero => intro k _ hfk; omega
  | succ fuel ih =>
      intro k hkj hfk
      have hnl : ¬ k * check_interval > timeout := by
        have : k * check_interval ≤ j * check_interval := Nat.mul_le_mul_right _ hkj
        omega
      rcases Nat.lt_or_ge k j with hlt | hge
      · obtain ⟨i, hpk, hterm2⟩ := hmid k hlt
        rw [wait_for_completion_aux, if_neg hnl]
        simp only [hpk, hterm2]
        exact (by simpa using ih (k + 1) (by omega) (by omega))
      · have hkj2 : k = j := by omega
        subst hkj2
        rw [wait_for_completion_aux, if_neg hnl]
        simp [hj, hterm]

/-- If the polls before `j` are non-terminal and poll `j` raises within
the deadline, its error propagates out of the loop unretried. -/
theorem wait_aux_pollerror (polls : Nat → Except VErr TaskInfo) (timeout check_interval : Nat)
    (j : Nat) (e : VErr)
    (hmid : ∀ m, m < j → ∃ i, polls m = .ok i ∧ is_terminal_state i.state = false)
    (hj : polls j = .error e)
    (hjt : j * check_interval ≤ timeout) :
    ∀ fuel k, k ≤ j → j - k < fuel →
      wait_for_completion_aux polls timeout check_interval fuel k = .pollError e (j + 1) := by
  intro fuel
  induction fuel with
  | zero => intro k _ hfk; omega
  | succ fuel ih =>
      intro k hkj hfk
      have hnl : ¬ k * check_interval > timeout := by
        have : k * check_interval ≤ j * check_interval := Nat.mul_le_mul_right _ hkj
        omega
      rcases Nat.lt_or_ge k j with hlt | hge
      · obtain ⟨i, hpk, hterm2⟩ := hmid k hlt
        rw [wait_for_completion_aux, if_neg hnl]
        simp only [hpk, hterm2]
        exact (by simpa using ih (k + 1) (by omega) (by omega))
      · have hkj2 : k = j := by omega
        subst hkj2
        rw [wait_for_completion_aux, if_neg hnl]
        simp [hj]

/-- For every creation at index `i` with a truthy URL, the download loop
(started at index `j`) contains the deterministically named main entry. -/
theorem download_entries_main_mem (pre save_dir : String) :
    ∀ (l : List Creation) (j i : Nat) (c : Creation) (u : String),
      l.get? i = some c → c.url = some u → u ≠ "" →
      ("main_" ++ toString (j + i),
        save_dir ++ "/" ++ pre ++ "_" ++ c.id.getD ("creation_" ++ toString (j + i)) ++
          derive_ext u ".mp4") ∈ download_entries pre save_dir j l := by
  intro l
  induction l with
  | nil => intro j i c u h _ _; simp at h
  | cons hd tl ih =>
      intro j i c u hget hu hne
      cases i with
      | zero =>
          have hhd : hd = c := by simpa using hget
          subst hhd
          unfold download_entries
          rw [Nat.add_zero]
          simp only [hu, List.mem_append]
          left
          simp [hne]
      | succ i' =>
          have hget' : tl.get? i' = some c := by simpa using hget
          have key : j + (i' + 1) = (j + 1) + i' := by omega
          unfold download_entries
          rw [key]
          simp only [List.mem_append]
          right
          exact ih (j + 1) i' c u hget' hu hne

/-- For every creation at index `i` with a truthy cover URL, the download
loop contains the deterministically named cover entry. -/
theorem download_entries_cover_mem (pre save_dir : String) :
    ∀ (l : List Creation) (j i : Nat) (c : Creation) (u : String),
      l.get? i = some c → c.cover_url = some u → u ≠ "" →
      ("cover_" ++ toString (j + i),
        save_dir ++ "/" ++ pre ++ "_" ++ c.id.getD ("creation_" ++ toString (j + i)) ++
          "_cover" ++ derive_ext u ".jpg") ∈ download_entries pre save_dir j l := by
  intro l
  induction l with
  | nil => intro j i c u h _ _; simp at h
  | cons hd tl ih =>
      intro j i c u hget hu hne
      cases i with
      | zero =>
          have hhd : hd = c := by simpa using hget
          subst hhd
          unfold download_entries
          rw [Nat.add_zero]
          simp only [hu, List.mem_append]
          left; right
          simp [hne]
      | succ i' =>
          have hget' : tl.get? i' = some c := by simpa using hget
          have key : j + (i' + 1) = (j + 1) + i' := by omega
          unfold download_entries
          rw [key]
          simp only [List.mem_append]
          right
          exact ih (j + 1) i' c u hget' hu hne

/-! ## Claim theorems -/

/-- C3: `is_retryable_error` returns true exactly for the fixed allow-list
of codes — service-unavailable (500001), internal-server-error (500),
processing-error (500002), model-error (500003), storage-error (500004),
and the rate-limit codes 429 and 429001 — and false for every other code;
in particular "429001" is retryable. -/
theorem c3_retryable_allowlist :
    (∀ c : String, is_retryable_error c = true ↔
        c ∈ ["500001", "500", "500002", "500003", "500004", "429", "429001"])
    ∧ is_retryable_error "429001" = true := by
  constructor
  · intro c
    simp [is_retryable_error, retryable_codes]
  · rfl

/-- C3 witness: the allow-list membership evaluated at the rate-limit code
"429001" (retryable) and the parameter-error code "400" (not). -/
theorem c3_retryable_allowlist_witness :
    is_retryable_error "429001" = true ∧ is_retryable_error "400" = false := by
  refine ⟨c3_retryable_allowlist.2, ?_⟩
  rw [Bool.eq_false_iff]
  intro htrue
  exact absurd ((c3_retryable_allowlist.1 "400").mp htrue) (by decide)

/-- C4: for every code and every 1-indexed attempt, the retry delay is
`min(base * 2 ^ (attempt - 1), 300)`; attempt 1 yields the base delay
unmodified, the delay is monotone in the attempt number, and it never
exceeds 300. -/
theorem c4_backoff_delay_formula :
    (∀ (c : String) (n : Nat), 1 ≤ n →
        get_retry_delay c n = min (base_delay c * 2 ^ (n - 1)) 300)
    ∧ (∀ c : String, get_retry_delay c 1 = base_delay c)
    ∧ (∀ (c : String) (n m : Nat), n ≤ m → get_retry_delay c n ≤ get_retry_delay c m)
    ∧ (∀ (c : String) (n : Nat), get_retry_delay c n ≤ 300) := by
  refine ⟨fun c n _ => rfl, fun c => ?_, fun c n m h => ?_, fun c n => min_le_right _ _⟩
  · have hb := base_delay_le_300 c
    simp [get_retry_delay]
    omega
  · apply min_le_min _ (le_refl 300)
    exact Nat.mul_le_mul_left _ (Nat.pow_le_pow_right (by norm_num) (Nat.sub_le_sub_right h 1))

/-- C4 witness: the formula at attempt 2, the unmodified base at attempt 1
(30 for "429001"), monotonicity between attempts 1 and 4, and the cap at a
large attempt. -/
theorem c4_backoff_delay_formula_witness :
    get_retry_delay "429001" 2 = min (base_delay "429001" * 2 ^ (2 - 1)) 300
    ∧ get_retry_delay "429001" 1 = base_delay "429001"
    ∧ get_retry_delay "500" 1 ≤ get_retry_delay "500" 4
    ∧ get_retry_delay "429" 10 ≤ 300 :=
  ⟨c4_backoff_delay_formula.1 "429001" 2 (by decide),
   c4_backoff_delay_formula.2.1 "429001",
   c4_backoff_delay_formula.2.2.1 "500" 1 4 (by decide),
   c4_backoff_delay_formula.2.2.2 "429" 10⟩

/-- C5: for every code registered in the taxonomy, the message is
non-empty and the HTTP status is one of
{400, 401, 403, 404, 409, 413, 415, 422, 429, 500}; every unregistered
code falls back to the generic unknown-error message, status 500, and is
not retryable. -/
theorem c5_describe_total :
    (∀ c ∈ registryCodes,
        get_error_message c ≠ "" ∧
        get_http_status_code c ∈ [400, 401, 403, 404, 409, 413, 415, 422, 429, 500])
    ∧ (∀ c : String, c ∉ registryCodes →
        get_error_message c = "未知错误: " ++ c ∧
        get_http_status_code c = 500 ∧
        is_retryable_error c = false) := by
  constructor
  · decide
  · have hsubM : ∀ s ∈ ERROR_MESSAGES.map Prod.fst, s ∈ registryCodes := by decide
    have hsubH : ∀ s ∈ HTTP_STATUS_CODES.map Prod.fst, s ∈ registryCodes := by decide
    have hsubR : ∀ s ∈ retryable_codes, s ∈ registryCodes := by decide
    intro c hc
    have hmsg : ERROR_MESSAGES.lookup c = none := by
      apply lookup_eq_none_of_forall_ne
      intro p hp hpc
      exact hc (hpc ▸ hsubM p.1 (List.mem_map_of_mem _ hp))
    have hhttp : HTTP_STATUS_CODES.lookup c = none := by
      apply lookup_eq_none_of_forall_ne
      intro p hp hpc
      exact hc (hpc ▸ hsubH p.1 (List.mem_map_of_mem _ hp))
    have hret : is_retryable_error c = false := by
      have : c ∉ retryable_codes := fun hmem => hc (hsubR c hmem)
      simp [is_retryable_error, this]
    exact ⟨by simp [get_error_message, hmsg], by simp [get_http_status_code, hhttp], hret⟩

/-- C5 witness: the registered duration-error code "400007" gets a
non-empty message and a listed status; the unregistered code "999" falls
back to the generic descriptor. -/
theorem c5_describe_total_witness :
    (get_error_message "400007" ≠ "" ∧
      get_http_status_code "400007" ∈ [400, 401, 403, 404, 409, 413, 415, 422, 429, 500])
    ∧ (get_error_message "999" = "未知错误: " ++ "999" ∧
      get_http_status_code "999" = 500 ∧
      is_retryable_error "999" = false) :=
  ⟨c5_describe_total.1 "400007" (by decide), c5_describe_total.2 "999" (by decide)⟩

/-- C6: `handle_api_response` raises exactly when the body has an
`error_code` field different from "0", and the raised error carries the
code, its registered message, and the body's `details` (defaulted to the
empty object); a body with no error-code field or code "0" passes. -/
theorem c6_raise_iff_nonzero_error_code :
    ∀ r : ResponseData,
      (raisesError (handle_api_response r) = true ↔ (∃ c, r.error_code = some c ∧ c ≠ "0"))
      ∧ (∀ c, r.error_code = some c → c ≠ "0" →
          handle_api_response r =
            .error { error_code := c, message := get_error_message c
                   , details := r.details.getD [] }) := by
  intro r
  rcases r with ⟨ec, det⟩
  constructor
  · cases ec with
    | none => simp [handle_api_response, raisesError]
    | some c =>
        by_cases hc : c = "0" <;> simp [handle_api_response, raisesError, hc, create_error]
  · intro c hcode hne
    cases ec with
    | none => simp at hcode
    | some x =>
        simp only [Option.some.injEq] at hcode
        subst hcode
        simp [handle_api_response, hne, create_error]

/-- C6 witness: the body with error code "429001" and a details object
raises the descriptor-built error; the details are carried along and the
message is the registered one. -/
theorem c6_raise_iff_nonzero_error_code_witness :
    handle_api_response ⟨some "429001", some [("k", "v")]⟩ =
      .error { error_code := "429001", message := get_error_message "429001"
             , details := [("k", "v")] }
    ∧ get_error_message "429001" = "达到请求频率限制" :=
  ⟨(c6_raise_iff_nonzero_error_code ⟨some "429001", some [("k", "v")]⟩).2 "429001" rfl
     (by decide),
   by decide⟩

/-- C10: `get_video_url` and `get_audio_url` are extensionally equal, and
both return the first creation's url when the state is "success" and the
creations list is non-empty, otherwise none. -/
theorem c10_video_audio_url_equal :
    ∀ t : TaskInfo,
      get_video_url t = get_audio_url t ∧ get_video_url t = first_creation_url_spec t := by
  intro t
  refine ⟨rfl, ?_⟩
  rcases t with ⟨state, creations, tid⟩
  cases state with
  | none => cases creations <;> simp [get_video_url, get_creations, first_creation_url_spec]
  | some s =>
      by_cases hs : s = "success" <;> cases creations <;>
        simp [get_video_url, get_creations, first_creation_url_spec, hs]

/-- C10 witness: the equivalence evaluated on a succeeded task with one
creation. -/
theorem c10_video_audio_url_equal_witness :
    get_video_url ⟨some "success", [⟨some "c", some "u", none⟩], none⟩ =
      get_audio_url ⟨some "success", [⟨some "c", some "u", none⟩], none⟩
    ∧ get_video_url ⟨some "success", [⟨some "c", some "u", none⟩], none⟩ =
      first_creation_url_spec ⟨some "success", [⟨some "c", some "u", none⟩], none⟩ :=
  c10_video_audio_url_equal ⟨some "success", [⟨some "c", some "u", none⟩], none⟩

/-- C2: an image-to-video submission with an image count other than 1, and
a submission in any of the four video operation families with a specified
duration outside that family's whitelist for the chosen model (for
text-to-video, any model present in its duration table), raises a local
Python `ValueError` before `_make_request` is ever invoked (zero network
calls). -/
theorem c2_local_validation_before_network :
    (∀ model images prompt duration seed resolution movement_amplitude bgm payload
        callback_url,
      images.length ≠ 1 →
      isLocalValidationError (image_to_video model images prompt duration seed resolution
        movement_amplitude bgm payload callback_url) = true ∧
      netCalls (image_to_video model images prompt duration seed resolution
        movement_amplitude bgm payload callback_url) = 0)
    ∧ (∀ model images prompt d seed resolution movement_amplitude bgm payload callback_url,
      d ∉ MODEL_DURATION_LIMITS model →
      isLocalValidationError (image_to_video model images prompt (some d) seed resolution
        movement_amplitude bgm payload callback_url) = true ∧
      netCalls (image_to_video model images prompt (some d) seed resolution
        movement_amplitude bgm payload callback_url) = 0)
    ∧ (∀ model images prompt d seed aspect_ratio resolution movement_amplitude bgm payload
        callback_url,
      d ∉ REFERENCE_MODEL_DURATION_LIMITS model →
      isLocalValidationError (reference_to_video model images prompt (some d) seed
        aspect_ratio resolution movement_amplitude bgm payload callback_url) = true ∧
      netCalls (reference_to_video model images prompt (some d) seed aspect_ratio
        resolution movement_amplitude bgm payload callback_url) = 0)
    ∧ (∀ model images prompt d seed resolution movement_amplitude bgm payload callback_url,
      d ∉ START_END_MODEL_DURATION_LIMITS model →
      isLocalValidationError (start_end_to_video model images prompt (some d) seed
        resolution movement_amplitude bgm payload callback_url) = true ∧
      netCalls (start_end_to_video model images prompt (some d) seed resolution
        movement_amplitude bgm payload callback_url) = 0)
    ∧ (∀ model style prompt d seed aspect_ratio resolution movement_amplitude bgm payload
        callback_url allowed,
      TEXT_TO_VIDEO_MODEL_DURATION_LIMITS model = some allowed →
      d ∉ allowed →
      isLocalValidationError (text_to_video model style prompt (some d) seed aspect_ratio
        resolution movement_amplitude bgm payload callback_url) = true ∧
      netCalls (text_to_video model style prompt (some d) seed aspect_ratio resolution
        movement_amplitude bgm payload callback_url) = 0) := by
  refine ⟨?_, ?_, ?_, ?_, ?_⟩
  · intro model images prompt duration seed resolution movement_amplitude bgm payload
      callback_url h
    simp [image_to_video, h, isLocalValidationError, netCalls]
  · intro model images prompt d seed resolution movement_amplitude bgm payload callback_url
      hd
    have hm : _validate_duration model (some d) =
        .error (.valueError ("模型不支持 " ++ toString d ++ " 秒时长")) := by
      simp [_validate_duration, hd]
    unfold image_to_video
    split_ifs <;> simp [hm, isLocalValidationError, netCalls]
  · intro model images prompt d seed aspect_ratio resolution movement_amplitude bgm payload
      callback_url hd
    have hm : _validate_duration_for_reference model (some d) =
        .error (.valueError ("模型在参考生视频中不支持 " ++ toString d ++ " 秒时长")) := by
      simp [_validate_duration_for_reference, hd]
    unfold reference_to_video
    split_ifs <;> simp [hm, isLocalValidationError, netCalls]
  · intro model images prompt d seed resolution movement_amplitude bgm payload callback_url
      hd
    have hm : _validate_duration_for_start_end model (some d) =
        .error (.valueError ("模型在首尾帧生视频中不支持 " ++ toString d ++ " 秒时长")) := by
      simp [_validate_duration_for_start_end, hd]
    unfold start_end_to_video
    split_ifs <;> simp [hm, isLocalValidationError, netCalls]
  · intro model style prompt d seed aspect_ratio resolution movement_amplitude bgm payload
      callback_url allowed hlook hd
    have hm : _validate_duration_for_text_to_video model (some d) =
        .error (.valueError ("模型在文生视频中不支持 " ++ toString d ++ " 秒时长")) := by
      simp [_validate_duration_for_text_to_video, hlook, hd]
    unfold text_to_video
    split_ifs <;> simp [hm, isLocalValidationError, netCalls]

/-- C2 witness: zero images for image-to-video, a 5-second duration for
vidu1.5 image-to-video (whitelist [4, 8]), a 4-second duration for
text-to-video on viduq1 (whitelist [5]): each raises locally with zero
network calls. -/
theorem c2_local_validation_before_network_witness :
    (isLocalValidationError (image_to_video .vidu2_0 [] none none none none none none
        none none) = true ∧
      netCalls (image_to_video .vidu2_0 [] none none none none none none none none) = 0)
    ∧ (isLocalValidationError (image_to_video .vidu1_5 ["img"] none (some 5) none none
        none none none none) = true ∧
      netCalls (image_to_video .vidu1_5 ["img"] none (some 5) none none none none none
        none) = 0)
    ∧ (isLocalValidationError (text_to_video .viduq1 "general" "p" (some 4) none none
        none none none none none) = true ∧
      netCalls (text_to_video .viduq1 "general" "p" (some 4) none none none none none
        none none) = 0) :=
  ⟨c2_local_validation_before_network.1 .vidu2_0 [] none none none none none none none
     none (by decide),
   c2_local_validation_before_network.2.1 .vidu1_5 ["img"] none 5 none none none none
     none none (by decide),
   c2_local_validation_before_network.2.2.2.2 .viduq1 "general" "p" 4 none none none
     none none none none [5] rfl (by decide)⟩

/-- C8 counterexample to the claim as stated: the empty event list
vacuously satisfies every per-event bound yet is rejected, and an event
list within bounds for duration 12 is rejected because the duration
itself must lie in [2, 10]. -/
theorem c8_timing_counterexample :
    timing_to_audio "audio1.0" [] (some 6) none none none =
      .error (.valueError "timing_prompts参数不能为空")
    ∧ timing_to_audio "audio1.0" [⟨0, 3, "a"⟩] (some 12) none none none =
      .error (.valueError "duration参数必须在2-10秒之间") := by
  exact ⟨rfl, rfl⟩

/-- C8 (amended): a timed-audio submission with a NON-EMPTY event list and
a duration that is unspecified or within [2, 10] is accepted whenever each
event has `0 ≤ from < to ≤ duration` (default 10) and a prompt of at most
1500 characters — overlap between events is never checked — and any event
violating one of these bounds raises a local `ValueError`. -/
theorem c8_timing_validation :
    (∀ (model : String) (tps : List TimingPrompt) (d : Rat) (seed : Option Int)
        (cb : Option String),
      tps ≠ [] → 2 ≤ d → d ≤ 10 →
      (∀ e ∈ tps, 0 ≤ e.«from» ∧ e.«from» < e.«to» ∧ e.«to» ≤ d ∧ e.prompt.length ≤ 1500) →
      timing_to_audio model tps (some d) seed none cb =
        .ok ⟨model, tps, some d, seed, none, cb⟩)
    ∧ (∀ (model : String) (tps : List TimingPrompt) (seed : Option Int) (cb : Option String),
      tps ≠ [] →
      (∀ e ∈ tps, 0 ≤ e.«from» ∧ e.«from» < e.«to» ∧ e.«to» ≤ 10 ∧ e.prompt.length ≤ 1500) →
      timing_to_audio model tps none seed none cb = .ok ⟨model, tps, none, seed, none, cb⟩)
    ∧ (∀ (model : String) (tps : List TimingPrompt) (d : Rat) (seed : Option Int)
        (payload : Option String) (cb : Option String) (e : TimingPrompt),
      e ∈ tps → 2 ≤ d → d ≤ 10 →
      (e.«from» < 0 ∨ e.«to» > d ∨ e.«to» ≤ e.«from» ∨ 1500 < e.prompt.length) →
      isLocalValidationError (timing_to_audio model tps (some d) seed payload cb) = true) := by
  refine ⟨?_, ?_, ?_⟩
  · intro model tps d seed cb hne h2 h10 hb
    unfold timing_to_audio
    rw [if_neg (by simpa using hne),
        if_neg (by simp only [Option.any_some, Bool.or_eq_true, decide_eq_true_eq, not_or,
                     not_lt]
                   exact ⟨h2, h10⟩)]
    have hd0 : d ≠ 0 := by rintro rfl; norm_num at h2
    have hv := validate_timing_events_ok d tps 0 hb
    simp [hd0, hv]
  · intro model tps seed cb hne hb
    unfold timing_to_audio
    rw [if_neg (by simpa using hne)]
    have hv := validate_timing_events_ok 10 tps 0 hb
    simp [hv]
  · intro model tps d seed payload cb e hmem h2 h10 hviol
    unfold timing_to_audio
    rw [if_neg (by rintro h; rw [List.isEmpty_iff] at h; subst h; simp at hmem),
        if_neg (by simp only [Option.any_some, Bool.or_eq_true, decide_eq_true_eq, not_or,
                     not_lt]
                   exact ⟨h2, h10⟩)]
    have hd0 : d ≠ 0 := by rintro rfl; norm_num at h2
    have hv := validate_timing_events_err d tps 0 e hmem hviol
    simp only [hd0, if_false, ite_false]
    rcases hres : validate_timing_events (if d = 0 then 10 else d) 0 tps with ev | u
    · rw [if_neg hd0] at hres
      rw [hres] at hv
      cases ev with
      | valueError m => simp [isLocalValidationError, hres]
      | keyError k => simp [isLocalValidationError] at hv
    · rw [if_neg hd0] at hres
      rw [hres] at hv
      simp [isLocalValidationError] at hv

/-- C8 witness: the spec's scenario — overlapping events
[(0,3,"a"), (2,6,"b")] with duration 6 are accepted; the event (5,7) with
duration 6 is rejected because `to` exceeds the duration. -/
theorem c8_timing_validation_witness :
    timing_to_audio "audio1.0" [⟨0, 3, "a"⟩, ⟨2, 6, "b"⟩] (some 6) none none none =
      .ok ⟨"audio1.0", [⟨0, 3, "a"⟩, ⟨2, 6, "b"⟩], some 6, none, none, none⟩
    ∧ isLocalValidationError (timing_to_audio "audio1.0" [⟨5, 7, "x"⟩] (some 6) none none
        none) = true :=
  ⟨c8_timing_validation.1 "audio1.0" [⟨0, 3, "a"⟩, ⟨2, 6, "b"⟩] 6 none none (by decide)
     (by decide) (by decide) (by decide),
   c8_timing_validation.2.2 "audio1.0" [⟨5, 7, "x"⟩] 6 none none none ⟨5, 7, "x"⟩
     (by decide) (by decide) (by decide) (by decide)⟩

/-- C1 counterexample to the claim as stated: a server that always
reports the unrecognised state "weird" does not make the wait raise a
protocol error — with timeout 10 and interval 5 the loop polls three
times (retrying the unrecognised state) and then raises TimeoutError. -/
theorem c1_unrecognized_state_counterexample :
    wait_for_completion (fun _ => .ok ⟨some "weird", [], none⟩) 10 5 = .timedOut 3 := by
  rfl

/-- C1 (amended): an unrecognised state string is treated exactly like a
non-terminal state: the wait keeps polling (sleeping between polls) and,
if only unrecognised states are ever observed, raises TimeoutError once
past the deadline — it raises no protocol error and never returns such a
task. -/
theorem c1_unrecognized_state_treated_as_inflight :
    ∀ (polls : Nat → Except VErr TaskInfo) (timeout check_interval : Nat),
      1 ≤ check_interval →
      (∀ k, ∃ i, polls k = .ok i ∧ is_recognized_state i.state = false) →
      isTimedOut (wait_for_completion polls timeout check_interval) = true ∧
      (∀ n, wait_for_completion polls timeout check_interval = .timedOut n →
        timeout < n * check_interval) := by
  intro polls timeout ci hint hp
  have hp2 : ∀ k, ∃ i, polls k = .ok i ∧ is_terminal_state i.state = false := by
    intro k
    obtain ⟨i, hk, hr⟩ := hp k
    exact ⟨i, hk, unrecognized_not_terminal _ hr⟩
  obtain ⟨n0, hn0, hb0, _⟩ :=
    wait_aux_timeout polls timeout ci hint hp2 (timeout + 1) 0 (by omega)
  rw [wait_for_completion]
  refine ⟨by rw [hn0]; rfl, ?_⟩
  intro n hn
  rw [hn0] at hn
  cases hn
  exact hb0

/-- C1 witness: a stream of the unrecognised state "pending" with timeout
7 and interval 3 ends in TimeoutError. -/
theorem c1_unrecognized_state_treated_as_inflight_witness :
    isTimedOut (wait_for_completion (fun _ => .ok ⟨some "pending", [], none⟩) 7 3) = true :=
  (c1_unrecognized_state_treated_as_inflight (fun _ => .ok ⟨some "pending", [], none⟩) 7 3
    (by decide) (fun _ => ⟨⟨some "pending", [], none⟩, rfl, by decide⟩)).1

/-- C7: the wait returns the polled task after one poll when the very
first poll is terminal, and more generally after `j + 1` polls when the
first terminal poll is `j` (at elapsed time `j * check_interval` within
the deadline); with a never-terminal stream it raises TimeoutError at the
first iteration past the deadline (elapsed > timeout, one interval past at
most); and a failing poll within the deadline propagates its own error
immediately, unretried. -/
theorem c7_wait_until_terminal :
    (∀ (polls : Nat → Except VErr TaskInfo) (timeout check_interval : Nat) (info : TaskInfo),
        polls 0 = .ok info → is_terminal_state info.state = true →
        wait_for_completion polls timeout check_interval = .completed info 1)
    ∧ (∀ (polls : Nat → Except VErr TaskInfo) (timeout check_interval j : Nat)
        (info : TaskInfo),
        1 ≤ check_interval →
        (∀ m, m < j → ∃ i, polls m = .ok i ∧ is_terminal_state i.state = false) →
        polls j = .ok info → is_terminal_state info.state = true →
        j * check_interval ≤ timeout →
        wait_for_completion polls timeout check_interval = .completed info (j + 1))
    ∧ (∀ (polls : Nat → Except VErr TaskInfo) (timeout check_interval : Nat),
        1 ≤ check_interval →
        (∀ k, ∃ i, polls k = .ok i ∧ is_terminal_state i.state = false) →
        isTimedOut (wait_for_completion polls timeout check_interval) = true ∧
        ∀ n, wait_for_completion polls timeout check_interval = .timedOut n →
          timeout < n * check_interval ∧ (n - 1) * check_interval ≤ timeout)
    ∧ (∀ (polls : Nat → Except VErr TaskInfo) (timeout check_interval j : Nat) (e : VErr),
        1 ≤ check_interval →
        (∀ m, m < j → ∃ i, polls m = .ok i ∧ is_terminal_state i.state = false) →
        polls j = .error e →
        j * check_interval ≤ timeout →
        wait_for_completion polls timeout check_interval = .pollError e (j + 1)) := by
  refine ⟨?_, ?_, ?_, ?_⟩
  · intro polls timeout ci info h0 hterm
    exact wait_aux_completed polls timeout ci 0 info (by omega) h0 hterm (by simp)
      (timeout + 1) 0 (by omega) (by omega)
  · intro polls timeout ci j info hint hmid hj hterm hjt
    have hjle : j ≤ timeout := by
      have : j ≤ j * ci := Nat.le_mul_of_pos_right _ (by omega)
      omega
    exact wait_aux_completed polls timeout ci j info hmid hj hterm hjt
      (timeout + 1) 0 (by omega) (by omega)
  · intro polls timeout ci hint hp
    obtain ⟨n0, hn0, hb0, hdisj⟩ :=
      wait_aux_timeout polls timeout ci hint hp (timeout + 1) 0 (by omega)
    rw [wait_for_completion]
    refine ⟨by rw [hn0]; rfl, ?_⟩
    intro n hn
    rw [hn0] at hn
    cases hn
    rcases hdisj with rfl | h
    · omega
    · exact ⟨hb0, h⟩
  · intro polls timeout ci j e hint hmid hj hjt
    have hjle : j ≤ timeout := by
      have : j ≤ j * ci := Nat.le_mul_of_pos_right _ (by omega)
      omega
    exact wait_aux_pollerror polls timeout ci j e hmid hj hjt
      (timeout + 1) 0 (by omega) (by omega)

/-- C7 witness: an immediately succeeded task is returned after one poll;
the spec's scenario of timeout 1 with a server that never leaves
"processing" times out; a poll stream whose second poll raises propagates
that error after two polls. -/
theorem c7_wait_until_terminal_witness :
    wait_for_completion (fun _ => .ok ⟨some "success", [], none⟩) 300 5 =
      .completed ⟨some "success", [], none⟩ 1
    ∧ isTimedOut (wait_for_completion (fun _ => .ok ⟨some "processing", [], none⟩) 1 5) = true
    ∧ wait_for_completion
        (fun k => if k = 0 then .ok ⟨some "processing", [], none⟩
                  else .error (.valueError "boom")) 300 5 =
      .pollError (.valueError "boom") 2 :=
  ⟨c7_wait_until_terminal.1 (fun _ => .ok ⟨some "success", [], none⟩) 300 5
     ⟨some "success", [], none⟩ rfl rfl,
   (c7_wait_until_terminal.2.2.1 (fun _ => .ok ⟨some "processing", [], none⟩) 1 5
     (by decide) (fun _ => ⟨⟨some "processing", [], none⟩, rfl, rfl⟩)).1,
   c7_wait_until_terminal.2.2.2
     (fun k => if k = 0 then .ok ⟨some "processing", [], none⟩
               else .error (.valueError "boom")) 300 5 1 (.valueError "boom")
     (by decide)
     (fun m hm => by
       have hm0 : m = 0 := by omega
       subst hm0
       exact ⟨⟨some "processing", [], none⟩, rfl, rfl⟩)
     rfl (by decide)⟩

/-- C9 counterexample to the claim as stated: the artifact URL
"https://cdn.vidu.cn/abc" has a query-stripped path with no extension, so
the claim demands the ".mp4" fallback, but the code keys the fallback on a
dot anywhere in the stripped URL — the dots of the host — and produces the
spurious suffix ".cn/abc" instead. -/
theorem c9_download_ext_counterexample :
    download_creation
        ⟨some "success", [⟨some "c1", some "https://cdn.vidu.cn/abc", none⟩], some "t"⟩
        "out" (some "p") = .ok [("main_0", "out/p_c1.cn/abc")]
    ∧ "out/p_c1.cn/abc" ≠ "out/p_c1.mp4" := ⟨rfl, by decide⟩

/-- C9 (amended): `download_creation` raises a local `ValueError` on any
non-succeeded task; the extension comes from the query-stripped URL —
everything after its last dot when it contains a dot anywhere (even one in
the host, so an extension-less path need not get the fallback), and the
`.mp4` / `.jpg` fallback only when the whole stripped URL is dot-free —
and every artifact with a non-empty URL is written under
`{prefix}_{artifactId}{ext}` (the cover under
`{prefix}_{artifactId}_cover{ext}`). -/
theorem c9_download_naming :
    (∀ (t : TaskInfo) (save_dir : String) (p : Option String),
        t.state ≠ some "success" →
        download_creation t save_dir p = .error (.valueError "任务未完成或没有生成物"))
    ∧ (∀ u d : String, containsChar '.' ((splitOnChar '?' u).headD u) = false →
        derive_ext u d = d)
    ∧ (∀ u d : String, containsChar '.' ((splitOnChar '?' u).headD u) = true →
        derive_ext u d = "." ++ (splitOnChar '.' ((splitOnChar '?' u).headD u)).getLastD "")
    ∧ (∀ (t : TaskInfo) (save_dir p : String) (i : Nat) (c : Creation) (u : String),
        t.state = some "success" → t.creations.get? i = some c →
        c.url = some u → u ≠ "" →
        raisesError (download_creation t save_dir (some p)) = false ∧
        ("main_" ++ toString i,
          save_dir ++ "/" ++ p ++ "_" ++ c.id.getD ("creation_" ++ toString i) ++
            derive_ext u ".mp4") ∈ okEntries (download_creation t save_dir (some p)))
    ∧ (∀ (t : TaskInfo) (save_dir p : String) (i : Nat) (c : Creation) (u : String),
        t.state = some "success" → t.creations.get? i = some c →
        c.cover_url = some u → u ≠ "" →
        raisesError (download_creation t save_dir (some p)) = false ∧
        ("cover_" ++ toString i,
          save_dir ++ "/" ++ p ++ "_" ++ c.id.getD ("creation_" ++ toString i) ++
            "_cover" ++ derive_ext u ".jpg") ∈ okEntries (download_creation t save_dir (some p))) := by
  refine ⟨?_, ?_, ?_, ?_, ?_⟩
  · intro t sd p h
    have hg : get_creations t = [] := by
      unfold get_creations
      rw [if_neg (by simpa using h)]
    simp [download_creation, hg]
  · intro u d h
    rw [List.headD_eq_head?] at h
    unfold derive_ext
    rw [if_neg (by simp [h])]
  · intro u d h
    rw [List.headD_eq_head?] at h
    unfold derive_ext
    rw [if_pos (by simp [h])]
  · intro t sd p i c u hstate hget hu hne
    have hcr : get_creations t = t.creations := by simp [get_creations, hstate]
    have hnonempty : t.creations.isEmpty = false := by
      cases hl : t.creations with
      | nil => rw [hl] at hget; simp at hget
      | cons a l => rfl
    have hres : download_creation t sd (some p) = .ok (download_entries p sd 0 t.creations) := by
      unfold download_creation
      rw [hcr]
      rw [if_neg (by simp [hnonempty])]
      rfl
    rw [hres]
    refine ⟨rfl, ?_⟩
    simpa [okEntries] using download_entries_main_mem p sd t.creations 0 i c u hget hu hne
  · intro t sd p i c u hstate hget hu hne
    have hcr : get_creations t = t.creations := by simp [get_creations, hstate]
    have hnonempty : t.creations.isEmpty = false := by
      cases hl : t.creations with
      | nil => rw [hl] at hget; simp at hget
      | cons a l => rfl
    have hres : download_creation t sd (some p) = .ok (download_entries p sd 0 t.creations) := by
      unfold download_creation
      rw [hcr]
      rw [if_neg (by simp [hnonempty])]
      rfl
    rw [hres]
    refine ⟨rfl, ?_⟩
    simpa [okEntries] using download_entries_cover_mem p sd t.creations 0 i c u hget hu hne

/-- C9 witness: a processing task raises; the dot-free URL "files" gets
the ".mp4" fallback; the artifact "c1" with URL ending ".mp4?sig=1" on a
succeeded task is written to "out/p_c1.mp4" under the label "main_0". -/
theorem c9_download_naming_witness :
    download_creation ⟨some "processing", [], none⟩ "out" none =
      .error (.valueError "任务未完成或没有生成物")
    ∧ derive_ext "files" ".mp4" = ".mp4"
    ∧ ("main_0", "out/p_c1" ++ derive_ext "https://cdn.vidu.cn/v.mp4?sig=1" ".mp4") ∈
        okEntries (download_creation
          ⟨some "success", [⟨some "c1", some "https://cdn.vidu.cn/v.mp4?sig=1", none⟩],
           some "t"⟩ "out" (some "p")) :=
  ⟨c9_download_naming.1 ⟨some "processing", [], none⟩ "out" none (by decide),
   c9_download_naming.2.1 "files" ".mp4" (by decide),
   by
     have h := (c9_download_naming.2.2.2.1
       ⟨some "success", [⟨some "c1", some "https://cdn.vidu.cn/v.mp4?sig=1", none⟩],
        some "t"⟩ "out" "p" 0 ⟨some "c1", some "https://cdn.vidu.cn/v.mp4?sig=1", none⟩
       "https://cdn.vidu.cn/v.mp4?sig=1" rfl rfl rfl (by decide)).2
     simpa using h⟩

end ViduSpec


